import Mathlib

/-
Verification development for the sumo-web3d backend server
(src/backend/server/server.py and its collaborators).

Shallow embedding conventions:
- Python dicts with string keys become association lists (List (String × α))
  with Python insertion-order semantics: inserting an existing key updates the
  value in place, inserting a fresh key appends at the end.
- Python float values become Rat; the builtin float(str) conversion is modelled
  by pyFloat, which covers the plain decimal forms used by fcd logs and fails
  (returns none) on non-numeric text, like the builtin raises ValueError.
- Fallible Python code (code that can raise) returns Except String.
- The asynchronous tick loop of run_simulation is modelled as a step function
  over the finite list of observations the loop makes: at the top of each
  iteration it reads the global simulation status, and each send either
  succeeds or raises ConnectionResetError.
-/

instance [DecidableEq ε] [DecidableEq α] : DecidableEq (Except ε α) := fun a b =>
  match a, b with
  | Except.error x, Except.error y =>
    if h : x = y then isTrue (h ▸ rfl)
    else isFalse (fun hc => h (Except.error.inj hc))
  | Except.error _, Except.ok _ => isFalse (fun hc => Except.noConfusion hc)
  | Except.ok _, Except.error _ => isFalse (fun hc => Except.noConfusion hc)
  | Except.ok x, Except.ok y =>
    if h : x = y then isTrue (h ▸ rfl)
    else isFalse (fun hc => h (Except.ok.inj hc))

/- Simulation status values STATUS_OFF, STATUS_RUNNING, STATUS_PAUSED
   (server.py lines 40 to 43). -/
inductive Status where
  | off
  | running
  | paused
deriving DecidableEq, Repr

/- ---------------------------------------------------------------------
   Modelling the Python builtin float(str) over plain decimal literals.
   --------------------------------------------------------------------- -/

def stripSpaces (cs : List Char) : List Char :=
  ((cs.dropWhile (fun c => c == ' ')).reverse.dropWhile (fun c => c == ' ')).reverse

/- Split a character list at the first dot, if any. -/
def splitAtDot : List Char → List Char × Option (List Char)
  | [] => ([], none)
  | c :: rest =>
    if c = '.' then ([], some rest)
    else
      let r := splitAtDot rest
      (c :: r.1, r.2)

def allDigits (cs : List Char) : Bool :=
  (!cs.isEmpty) && cs.all (fun c => c.isDigit)

def digitsVal (cs : List Char) : Nat :=
  cs.foldl (fun a c => 10 * a + (c.toNat - 48)) 0

/- Model of the Python builtin float applied to a string: optional
   surrounding spaces, optional sign, then either digits, or digits with a
   dot, where at least one digit must be present.  Non-numeric input yields
   none (Python raises ValueError).  Values are built with mkRat so that all
   results are in normal form and comparisons are executable. -/
def pyFloat (s : String) : Option Rat :=
  let cs := stripSpaces s.data
  let signBody : Int × List Char :=
    match cs with
    | '-' :: rest => (-1, rest)
    | '+' :: rest => (1, rest)
    | _ => (1, cs)
  match splitAtDot signBody.2 with
  | (ip, none) =>
    if allDigits ip then some (mkRat (signBody.1 * (digitsVal ip : Int)) 1) else none
  | (ip, some fp) =>
    if (allDigits ip || ip.isEmpty) && (allDigits fp || fp.isEmpty)
        && (!(ip.isEmpty && fp.isEmpty))
    then some (mkRat (signBody.1 * (digitsVal (ip ++ fp) : Int)) ((10 : Nat) ^ fp.length))
    else none

/- Multiplication of a parsed value by a natural constant, in normal form. -/
def ratMulNat (q : Rat) (k : Nat) : Rat :=
  mkRat (q.num * (k : Int)) q.den

/- ---------------------------------------------------------------------
   Entity model: raw fcd vehicle records and constructed entities
   (server.py, parse_color lines 290 to 293, read_fcd_vehicle 296 to 311).
   --------------------------------------------------------------------- -/

/- One raw vehicle record from a timestep of the fcd XML log: all attribute
   values are strings; vClass and color attributes may be absent.
   read_fcd_vehicle accesses x, y, speed, angle and type unconditionally. -/
structure RawVehicle where
  id : String
  x : String
  y : String
  speed : String
  angle : String
  vtype : String
  vClass : Option String
  color : Option String
deriving DecidableEq, Repr

/- A constructed vehicle entity, the value part of the dict built by
   read_fcd_vehicle.  Note that the angle field is the raw source string:
   the code stores vehicle angle without a float conversion. -/
structure Vehicle where
  x : Rat
  y : Rat
  z : Rat
  speed : Rat
  angle : String
  vtype : String
  vClass : String
  length : Rat
  width : Rat
  signals : Nat
  color : Option (List String)
deriving DecidableEq, Repr

/- str.split on commas, Python semantics: empty input gives one empty part. -/
def splitComma : List Char → List (List Char)
  | [] => [[]]
  | c :: rest =>
    let r := splitComma rest
    if c = ',' then [] :: r
    else
      match r with
      | [] => [[c]]
      | h :: t => (c :: h) :: t

/- parse_color (server.py 290 to 293): when the record has a color attribute,
   split it on commas and strip each part; otherwise contribute no color
   key at all. -/
def parse_color (v : RawVehicle) : Option (List String) :=
  v.color.map (fun s => (splitComma s.data).map (fun cs => String.mk (stripSpaces cs)))

/- read_fcd_vehicle (server.py 296 to 311).  The generic default literal
   DEFAULT_VEHTYPE is rewritten to car; x, y and speed go through float and
   raise on non-numeric input; angle is stored as is; a missing vClass
   defaults to passenger; length and width are the constants 4.5 and 1.8;
   signals is 0; color comes from parse_color. -/
def read_fcd_vehicle (v : RawVehicle) : Except String Vehicle :=
  let ty := if v.vtype == "DEFAULT_VEHTYPE" then "car" else v.vtype
  match pyFloat v.x, pyFloat v.y, pyFloat v.speed with
  | some xq, some yq, some sq =>
    Except.ok
      { x := xq, y := yq, z := mkRat 0 1, speed := sq, angle := v.angle, vtype := ty,
        vClass := v.vClass.getD "passenger", length := mkRat 9 2, width := mkRat 9 5,
        signals := 0, color := parse_color v }
  | _, _, _ => Except.error "could not convert string to float"

/- ---------------------------------------------------------------------
   Python dict operations on association lists.
   --------------------------------------------------------------------- -/

def dictLookup (m : List (String × α)) (k : String) : Option α :=
  (m.find? (fun p => p.1 == k)).map Prod.snd

/- Python dict insertion: an existing key keeps its position and gets the new
   value, a fresh key is appended at the end. -/
def dictInsert (m : List (String × α)) (k : String) (v : α) : List (String × α) :=
  if m.any (fun p => p.1 == k)
  then m.map (fun p => if p.1 == k then (k, v) else p)
  else m ++ [(k, v)]

abbrev VehMap := List (String × Vehicle)

/- The dict comprehension on server.py line 324, built left to right;
   a failing read_fcd_vehicle aborts the whole comprehension. -/
def buildVehDictAux (acc : VehMap) : List RawVehicle → Except String VehMap
  | [] => Except.ok acc
  | v :: rest =>
    match read_fcd_vehicle v with
    | Except.error e => Except.error e
    | Except.ok ent => buildVehDictAux (dictInsert acc v.id ent) rest

def buildVehDict (vs : List RawVehicle) : Except String VehMap :=
  buildVehDictAux [] vs

/- collections.Counter over the vClass values (server.py line 325):
   counts per class in first-appearance order. -/
def bumpCount (m : List (String × Nat)) (k : String) : List (String × Nat) :=
  if m.any (fun p => p.1 == k)
  then m.map (fun p => if p.1 == k then (p.1, p.2 + 1) else p)
  else m ++ [(k, 1)]

def countClasses (m : VehMap) : List (String × Nat) :=
  m.foldl (fun acc p => bumpCount acc p.2.vClass) []

/- ---------------------------------------------------------------------
   Delta engine.
   --------------------------------------------------------------------- -/

/- Contribution of one current entry to the delta: emitted in full when its
   id is absent from the previous mapping or its value changed. -/
def diffEntry [DecidableEq α] (previous : List (String × α)) (p : String × α) :
    Option (String × Option α) :=
  match dictLookup previous p.1 with
  | none => some (p.1, some p.2)
  | some w => if w = p.2 then none else some (p.1, some p.2)

/- Contribution of one previous entry: a tombstone (encoded as none) when
   its id is absent from the current mapping. -/
def tombEntry (current : List (String × α)) (p : String × α) :
    Option (String × Option α) :=
  if (dictLookup current p.1).isSome then none else some (p.1, none)

/-- Modelled from the spec: diff_dicts lives in src/backend/server/deltas.py,
which is not among the provided sources (server.py and sumo.py import it).
Spec section 4.2: for every id in current, if absent from previous or unequal
in value, emit it as added or changed (the complete current object); for every
id in previous absent from current, emit a tombstone.  A tombstone is encoded
here as a none value. -/
def diff_dicts [DecidableEq α] (previous current : List (String × α)) :
    List (String × Option α) :=
  current.filterMap (diffEntry previous) ++ previous.filterMap (tombEntry current)

/- ---------------------------------------------------------------------
   Snapshots and outbound wire messages.
   --------------------------------------------------------------------- -/

/- The snapshot dict assembled by read_next_step (server.py 331 to 340).
   The time field is the recorded timestep converted to milliseconds (the
   code renders it as a numeric string; the numeric value is modelled).
   The timing fields simulate_secs and snapshot_secs are wall-clock
   measurements and are not modelled. -/
structure Snapshot where
  time_ms : Rat
  vehicles : List (String × Option Vehicle)
  vehicle_counts : List (String × Nat)
deriving DecidableEq, Repr

/- One outbound websocket message: either a snapshot from the tick loop
   (server.py 368 to 370) or a state message from the control handler
   (get_state_websocket_message, 210 to 213, sent at 422). -/
inductive OutMsg where
  | snapshotMsg (s : Snapshot)
  | stateMsg (delayMs : Rat) (scen : String) (simulationStatus : Status)
deriving DecidableEq, Repr

def isStateMsg : OutMsg → Bool
  | OutMsg.stateMsg _ _ _ => true
  | _ => false

/- read_next_step (server.py 314 to 342): build the entity dict from the raw
   vehicle records, count classes, diff against the previous-frame cache,
   and return the snapshot together with the new cache value assigned to the
   last_vehicles global.  A float conversion failure (of a vehicle field or
   of the timestep attribute) raises, leaving the cache unchanged. -/
def read_next_step (timestep : String) (vehicles : List RawVehicle)
    (last_vehicles : VehMap) : Except String (Snapshot × VehMap) :=
  match buildVehDict vehicles with
  | Except.error e => Except.error e
  | Except.ok vdict =>
    match pyFloat timestep with
    | none => Except.error "could not convert string to float"
    | some t =>
      Except.ok
        ({ time_ms := ratMulNat t 1000,
           vehicles := diff_dicts last_vehicles vdict,
           vehicle_counts := countClasses vdict }, vdict)

/- ---------------------------------------------------------------------
   The tick loop run_simulation (server.py 345 to 376), for a recorded
   scenario backed by an fcd log and no lane distribution file.
   --------------------------------------------------------------------- -/

/- One timestep yielded by the fcd generator (server.py 250 to 267): the
   time attribute string and the buffered raw vehicle records. -/
structure FcdTimestep where
  time : String
  vehicles : List RawVehicle
deriving DecidableEq, Repr

/- The state the loop reads and writes across iterations: the generator
   cursor over the remaining log, and the last_vehicles previous-frame
   cache. -/
structure LoopState where
  log : List FcdTimestep
  cache : VehMap
deriving DecidableEq, Repr

/- How a finite run of the loop ended.
   fuelOut: the observed iterations were exhausted with the loop still alive.
   stopIter: next() was called on the exhausted fcd generator; the
     StopIteration escapes run_simulation uncaught (no handler in the code).
   valueErr: a float conversion inside read_next_step raised, uncaught.
   connReset: ws.send_str raised ConnectionResetError; the except branch
     prints and returns from the coroutine (server.py 371 to 373). -/
inductive LoopExit where
  | fuelOut
  | stopIter
  | valueErr
  | connReset
deriving DecidableEq, Repr

structure LoopResult where
  emitted : List OutMsg
  stepsCalled : Nat
  final : LoopState
  outcome : LoopExit
deriving DecidableEq, Repr

/- run_simulation as a function of the finite list of per-iteration
   observations: at the top of each iteration the loop reads the global
   simulation_status (first component), and if it sends, the send either
   succeeds or raises ConnectionResetError (second component).  When the
   status is not RUNNING the iteration only yields (asyncio.sleep 0) and
   does not touch the generator (server.py 354 to 376).  stepsCalled counts
   the next() calls made on the fcd generator, including a final call that
   raises StopIteration. -/
def run_simulation_fcd (obs : List (Status × Bool)) (st : LoopState) : LoopResult :=
  match obs with
  | [] => { emitted := [], stepsCalled := 0, final := st, outcome := LoopExit.fuelOut }
  | ob :: rest =>
    if ob.1 = Status.running then
      match st.log with
      | [] => { emitted := [], stepsCalled := 1, final := st, outcome := LoopExit.stopIter }
      | ts :: more =>
        match read_next_step ts.time ts.vehicles st.cache with
        | Except.error _ =>
          { emitted := [], stepsCalled := 1,
            final := { log := more, cache := st.cache }, outcome := LoopExit.valueErr }
        | Except.ok pr =>
          if ob.2 then
            let r := run_simulation_fcd rest { log := more, cache := pr.2 }
            { emitted := OutMsg.snapshotMsg pr.1 :: r.emitted,
              stepsCalled := r.stepsCalled + 1, final := r.final, outcome := r.outcome }
          else
            { emitted := [], stepsCalled := 1,
              final := { log := more, cache := pr.2 }, outcome := LoopExit.connReset }
    else run_simulation_fcd rest st

/- ---------------------------------------------------------------------
   The websocket control handler websocket_simulation_control
   (server.py 390 to 431) and cleanup_sumo_simulation (379 to 387).
   --------------------------------------------------------------------- -/

inductive ActionMsg where
  | start
  | pause
  | resume
  | cancel
  | changeDelay (delayLengthMs : Rat)
  | unknownAction
deriving DecidableEq, Repr

/- One inbound websocket message: a TEXT message holding an action, a TEXT
   message of an unrecognized type, or a WSMsgType.ERROR message. -/
inductive InMsg where
  | actionText (a : ActionMsg)
  | otherText
  | errorMsg
deriving DecidableEq, Repr

/- The state touched by the control handler: the module globals
   simulation_status, delay_length_ms, last_vehicles, the handler local
   variable task, and the external engine process.  liveTasks counts the
   run_simulation tasks that are currently live on the event loop; taskVar
   records whether the local variable task holds a task object, and
   taskAlive whether that referenced task has not yet been cancelled.
   scenName is current_scenario.name and live is current_scenario.is_live().
   sumoRunning tracks the external engine process for a live scenario. -/
structure CtrlState where
  simulation_status : Status
  delay_length_ms : Rat
  scenName : String
  live : Bool
  taskVar : Bool
  taskAlive : Bool
  liveTasks : Nat
  last_vehicles : VehMap
  sumoRunning : Bool
deriving DecidableEq, Repr

/- to_kebab_case (server.py 162 to 163): lower case, then spaces and
   underscores replaced by dashes. -/
def to_kebab_case (s : String) : String :=
  String.mk (s.data.map (fun c =>
    let l := c.toLower
    if l == ' ' || l == '_' then '-' else l))

/- get_state_websocket_message (server.py 166 to 171 and 210 to 213). -/
def get_state_websocket_message (st : CtrlState) : OutMsg :=
  OutMsg.stateMsg st.delay_length_ms (to_kebab_case st.scenName) st.simulation_status

/- cleanup_sumo_simulation (server.py 379 to 387): when the task variable
   holds a task, cancel it and clear the previous-frame caches, and for a
   live scenario close the engine connection.  When the task variable is
   None the function does nothing at all. -/
def cleanup_sumo_simulation (st : CtrlState) : CtrlState :=
  if st.taskVar then
    { st with
      liveTasks := if st.taskAlive then st.liveTasks - 1 else st.liveTasks,
      taskAlive := false,
      last_vehicles := [],
      sumoRunning := if st.live then false else st.sumoRunning }
  else st

/- The action dispatch of websocket_simulation_control (server.py 403 to
   422).  Every recognized action ends with one state message sent back
   (line 422); an unrecognized action raises.  A start action always sets
   the status to RUNNING and always creates a fresh run_simulation task,
   overwriting the local task variable; any previously created task keeps
   running (it is neither awaited nor cancelled here). -/
def handle_action (a : ActionMsg) (st : CtrlState) :
    Except String (CtrlState × List OutMsg) :=
  match a with
  | ActionMsg.start =>
    let st1 :=
      { st with
        sumoRunning := if st.live then true else st.sumoRunning,
        simulation_status := Status.running,
        liveTasks := st.liveTasks + 1,
        taskVar := true,
        taskAlive := true }
    Except.ok (st1, [get_state_websocket_message st1])
  | ActionMsg.pause =>
    let st1 := { st with simulation_status := Status.paused }
    Except.ok (st1, [get_state_websocket_message st1])
  | ActionMsg.resume =>
    let st1 := { st with simulation_status := Status.running }
    Except.ok (st1, [get_state_websocket_message st1])
  | ActionMsg.cancel =>
    let st1 := cleanup_sumo_simulation { st with simulation_status := Status.off }
    Except.ok (st1, [get_state_websocket_message st1])
  | ActionMsg.changeDelay ms =>
    let st1 := { st with delay_length_ms := ms }
    Except.ok (st1, [get_state_websocket_message st1])
  | ActionMsg.unknownAction => Except.error "unrecognized action websocket message"

/- The message dispatch of websocket_simulation_control (server.py 400 to
   429): TEXT messages of type action go to the action dispatch, other TEXT
   messages raise, and a WSMsgType.ERROR message (the client going away)
   sets the status to OFF and runs the cleanup, sending nothing. -/
def handle_ws_msg (m : InMsg) (st : CtrlState) :
    Except String (CtrlState × List OutMsg) :=
  match m with
  | InMsg.actionText a => handle_action a st
  | InMsg.otherText => Except.error "unrecognized websocket message"
  | InMsg.errorMsg =>
    Except.ok (cleanup_sumo_simulation { st with simulation_status := Status.off }, [])

/- ---------------------------------------------------------------------
   Scenario registry: load_scenarios_file (server.py 487 to 507).
   --------------------------------------------------------------------- -/

/- One entry of scenarios.json, reduced to the field the registry keys on. -/
structure ScenJson where
  name : String
deriving DecidableEq, Repr

/- A constructed Scenario object, reduced to its display name and its
   kebab-case name; the file-derived payload (network, settings, water,
   log paths) plays no part in the keying logic under verification. -/
structure ScenEntry where
  display_name : String
  name : String
deriving DecidableEq, Repr

/- Scenario.from_config_json / __init__ (server.py 95 to 156): the stored
   name is the kebab-cased display name. -/
def scenario_from_config_json (j : ScenJson) : ScenEntry :=
  { display_name := j.name, name := to_kebab_case j.name }

/- The exact message of the exception raised on duplicates (server.py 498
   to 501); the two adjacent string literals in the source concatenate
   without a space between the and same. -/
def dupNamesMsg : String :=
  "Invalid scenarios.json, cannot have two scenarios with thesame kebab case name"

/- load_scenarios_file (server.py 487 to 507).  A missing file path returns
   the previous registry unchanged.  Otherwise the kebab-cased names of the
   file entries are checked for duplicates (raising on any), entries whose
   kebab name is already registered are skipped, and the remaining ones are
   inserted keyed by their kebab name. -/
def load_scenarios_file (prev_scenarios : List (String × ScenEntry))
    (scenarios_file : Option (List ScenJson)) :
    Except String (List (String × ScenEntry)) :=
  match scenarios_file with
  | none => Except.ok prev_scenarios
  | some new_scenarios =>
    let new_scenarios_names := new_scenarios.map (fun j => to_kebab_case j.name)
    if new_scenarios_names.Nodup then
      let prev_names := prev_scenarios.map (fun p => p.2.name)
      let updates := new_scenarios.filter
        (fun j => !(prev_names.contains (to_kebab_case j.name)))
      Except.ok (updates.foldl
        (fun acc j =>
          let sc := scenario_from_config_json j
          dictInsert acc sc.name sc)
        prev_scenarios)
    else Except.error dupNamesMsg

/- ---------------------------------------------------------------------
   Analysis predicates and concrete demonstration inputs.
   --------------------------------------------------------------------- -/

/- A raw vehicle record whose x, y and speed attributes parse as floats,
   so that read_fcd_vehicle succeeds on it. -/
def vehOk (v : RawVehicle) : Bool :=
  (pyFloat v.x).isSome && (pyFloat v.y).isSome && (pyFloat v.speed).isSome

/- A recorded timestep whose time attribute and vehicle records all parse,
   so that read_next_step succeeds on it. -/
def tsOk (ts : FcdTimestep) : Bool :=
  (pyFloat ts.time).isSome && ts.vehicles.all vehOk

/- A well-formed raw record for the vehicle with the given id at the given
   x position. -/
def rv (i : String) (xv : String) : RawVehicle :=
  { id := i, x := xv, y := "0", speed := "1", angle := "90", vtype := "car",
    vClass := none, color := none }

/- The entity read_fcd_vehicle constructs from rv i xv. -/
def demoVeh (xv : Rat) : Vehicle :=
  { x := xv, y := mkRat 0 1, z := mkRat 0 1, speed := mkRat 1 1, angle := "90",
    vtype := "car", vClass := "passenger", length := mkRat 9 2, width := mkRat 9 5,
    signals := 0, color := none }

/- A recorded trajectory log holding exactly three timesteps of one vehicle. -/
def demoLog : List FcdTimestep :=
  [{ time := "0.0", vehicles := [rv "a" "1"] },
   { time := "1.0", vehicles := [rv "a" "2"] },
   { time := "2.0", vehicles := [rv "a" "3"] }]

/- A control-handler state in which a previous start action left the session
   RUNNING with one live tick-loop task. -/
def runningCtrl : CtrlState :=
  { simulation_status := Status.running, delay_length_ms := mkRat 30 1,
    scenName := "demo", live := false, taskVar := true, taskAlive := true,
    liveTasks := 1, last_vehicles := [("a", demoVeh (mkRat 1 1))], sumoRunning := false }

/- The control-handler state right after start: same state with one more
   live tick-loop task. -/
def runningCtrlStarted : CtrlState :=
  { runningCtrl with liveTasks := 2 }

/- A control-handler state of a fresh session: status OFF, no task yet. -/
def offCtrl : CtrlState :=
  { simulation_status := Status.off, delay_length_ms := mkRat 30 1,
    scenName := "demo", live := false, taskVar := false, taskAlive := false,
    liveTasks := 0, last_vehicles := [], sumoRunning := false }

/- A raw record whose angle attribute is not numeric text. -/
def badAngleVeh : RawVehicle :=
  { id := "v0", x := "1.5", y := "2", speed := "3", angle := "ninety",
    vtype := "car", vClass := none, color := none }

/- A raw record whose x attribute is not numeric text. -/
def badXVeh : RawVehicle :=
  { id := "v1", x := "west", y := "2", speed := "3", angle := "90",
    vtype := "car", vClass := none, color := none }

/- A raw record exercising all three normalizations: default type literal,
   missing vClass, missing color. -/
def defaultTypeVeh : RawVehicle :=
  { id := "v2", x := "1", y := "2", speed := "3", angle := "45.5",
    vtype := "DEFAULT_VEHTYPE", vClass := none, color := none }

/- The entity read_fcd_vehicle constructs from defaultTypeVeh. -/
def defaultTypeEnt : Vehicle :=
  { x := mkRat 1 1, y := mkRat 2 1, z := mkRat 0 1, speed := mkRat 3 1,
    angle := "45.5", vtype := "car", vClass := "passenger", length := mkRat 9 2,
    width := mkRat 9 5, signals := 0, color := none }

/- Two scenarios.json entries whose names collide after kebab-casing. -/
def demoDupJs : List ScenJson :=
  [{ name := "A B" }, { name := "a_b" }]

/- ---------------------------------------------------------------------
   Helper lemmas about dictionary lookups.
   --------------------------------------------------------------------- -/

theorem find?_eq_some_of_mem_nodup {α : Type} {S : List (String × α)}
    (hnd : (S.map Prod.fst).Nodup) {p : String × α} (hp : p ∈ S) :
    S.find? (fun q => q.1 == p.1) = some p := by
  induction S with
  | nil => cases hp
  | cons a rest ih =>
    rw [List.map_cons, List.nodup_cons] at hnd
    rcases List.mem_cons.mp hp with h1 | h1
    · subst h1
      rw [List.find?_cons_of_pos]
      simp
    · have hne : (a.1 == p.1) = false := by
        apply beq_eq_false_iff_ne.mpr
        intro he
        apply hnd.1
        rw [he]
        exact List.mem_map_of_mem Prod.fst h1
      rw [List.find?_cons_of_neg, ih hnd.2 h1]
      simp [hne]

theorem dictLookup_eq_some {α : Type} {S : List (String × α)}
    (hnd : (S.map Prod.fst).Nodup) {p : String × α} (hp : p ∈ S) :
    dictLookup S p.1 = some p.2 := by
  unfold dictLookup
  rw [find?_eq_some_of_mem_nodup hnd hp]
  rfl

/- ---------------------------------------------------------------------
   Claims about the delta engine.
   --------------------------------------------------------------------- -/

/-- Claim C1: for every pair of entity mappings, every id present in the
previous mapping and absent from the current one appears in the computed
delta as a tombstone entry; it is never silently omitted. -/
theorem diff_dicts_tombstone_of_removed {α : Type} [DecidableEq α]
    (previous current : List (String × α)) (k : String)
    (hprev : k ∈ previous.map Prod.fst) (habs : dictLookup current k = none) :
    (k, (none : Option α)) ∈ diff_dicts previous current := by
  obtain ⟨p, hp, hk⟩ := List.mem_map.mp hprev
  subst hk
  unfold diff_dicts
  apply List.mem_append_right
  apply List.mem_filterMap.mpr
  refine ⟨p, hp, ?_⟩
  unfold tombEntry
  rw [habs]
  rfl

theorem diff_dicts_tombstone_of_removed_witness :
    ("gone", (none : Option Nat)) ∈ diff_dicts [("gone", 7), ("kept", 1)] [("kept", 1)] :=
  diff_dicts_tombstone_of_removed [("gone", 7), ("kept", 1)] [("kept", 1)] "gone"
    (by decide) (by decide)

/-- Claim C2: for every mapping with no duplicate keys (every mapping derived
from a Frame is a dict and has none), diffing the mapping against itself
yields the empty delta. -/
theorem diff_dicts_self_empty {α : Type} [DecidableEq α] (S : List (String × α))
    (hnd : (S.map Prod.fst).Nodup) : diff_dicts S S = [] := by
  unfold diff_dicts
  rw [List.append_eq_nil]
  constructor
  · rw [List.filterMap_eq_nil_iff]
    intro p hp
    unfold diffEntry
    rw [dictLookup_eq_some hnd hp]
    simp
  · rw [List.filterMap_eq_nil_iff]
    intro p hp
    unfold tombEntry
    rw [dictLookup_eq_some hnd hp]
    simp

theorem diff_dicts_self_empty_witness :
    diff_dicts [("a", 1), ("b", 2)] [("a", 1), ("b", 2)] = [] :=
  diff_dicts_self_empty [("a", 1), ("b", 2)] (by decide)

/- ---------------------------------------------------------------------
   Claims about the tick loop.
   --------------------------------------------------------------------- -/

/-- Claim C7: while the simulation status is PAUSED or OFF, the tick loop
never calls the next operation of the data source: a run all of whose
observed statuses are PAUSED or OFF makes no step call, emits nothing, and
leaves the log cursor and previous-frame cache untouched, so pausing never
advances the underlying source. -/
theorem no_step_while_not_running (obs : List (Status × Bool)) (st : LoopState)
    (h : ∀ ob ∈ obs, ob.1 = Status.paused ∨ ob.1 = Status.off) :
    run_simulation_fcd obs st =
      { emitted := [], stepsCalled := 0, final := st, outcome := LoopExit.fuelOut } := by
  induction obs with
  | nil => rfl
  | cons ob rest ih =>
    have hob := h ob (List.mem_cons_self _ _)
    have hrest := fun q hq => h q (List.mem_cons_of_mem _ hq)
    unfold run_simulation_fcd
    have hnr : ¬ (ob.1 = Status.running) := by
      rcases hob with h1 | h1 <;> rw [h1] <;> intro hc <;> cases hc
    rw [if_neg hnr]
    exact ih hrest

theorem no_step_while_not_running_witness :
    run_simulation_fcd [(Status.paused, true), (Status.off, true)]
        { log := demoLog, cache := [] } =
      { emitted := [], stepsCalled := 0, final := { log := demoLog, cache := [] },
        outcome := LoopExit.fuelOut } :=
  no_step_while_not_running [(Status.paused, true), (Status.off, true)]
    { log := demoLog, cache := [] } (by decide)

/- Success of entity construction on well-formed records. -/
theorem read_fcd_vehicle_isOk {v : RawVehicle} (h : vehOk v = true) :
    ∃ e, read_fcd_vehicle v = Except.ok e := by
  unfold vehOk at h
  rw [Bool.and_eq_true, Bool.and_eq_true] at h
  obtain ⟨⟨hx, hy⟩, hs⟩ := h
  rw [Option.isSome_iff_exists] at hx hy hs
  obtain ⟨xq, hx⟩ := hx
  obtain ⟨yq, hy⟩ := hy
  obtain ⟨sq, hs⟩ := hs
  unfold read_fcd_vehicle
  simp only [hx, hy, hs]
  exact ⟨_, rfl⟩

theorem buildVehDictAux_isOk {vs : List RawVehicle} (h : ∀ v ∈ vs, vehOk v = true) :
    ∀ acc : VehMap, ∃ m, buildVehDictAux acc vs = Except.ok m := by
  induction vs with
  | nil => exact fun acc => ⟨acc, rfl⟩
  | cons v rest ih =>
    intro acc
    obtain ⟨e, he⟩ := read_fcd_vehicle_isOk (h v (List.mem_cons_self _ _))
    obtain ⟨m, hm⟩ := ih (fun w hw => h w (List.mem_cons_of_mem _ hw)) (dictInsert acc v.id e)
    refine ⟨m, ?_⟩
    unfold buildVehDictAux
    rw [he]
    exact hm

theorem read_next_step_isOk {ts : FcdTimestep} (h : tsOk ts = true) (cache : VehMap) :
    ∃ pr, read_next_step ts.time ts.vehicles cache = Except.ok pr := by
  unfold tsOk at h
  rw [Bool.and_eq_true] at h
  obtain ⟨ht, hv⟩ := h
  rw [List.all_eq_true] at hv
  obtain ⟨m, hm⟩ := buildVehDictAux_isOk hv []
  rw [Option.isSome_iff_exists] at ht
  obtain ⟨t, ht⟩ := ht
  unfold read_next_step buildVehDict
  simp only [hm, ht]
  exact ⟨_, rfl⟩

/- One successful RUNNING iteration of the loop: reads a timestep, sends the
   snapshot, and continues with the advanced cursor and updated cache. -/
theorem run_simulation_fcd_step {ob : Status × Bool} (hst : ob.1 = Status.running)
    (hsend : ob.2 = true) {st : LoopState} {ts : FcdTimestep} {more : List FcdTimestep}
    (hlog : st.log = ts :: more) {snap : Snapshot} {newCache : VehMap}
    (hread : read_next_step ts.time ts.vehicles st.cache = Except.ok (snap, newCache))
    (rest : List (Status × Bool)) :
    run_simulation_fcd (ob :: rest) st =
      { emitted := OutMsg.snapshotMsg snap ::
          (run_simulation_fcd rest { log := more, cache := newCache }).emitted,
        stepsCalled :=
          (run_simulation_fcd rest { log := more, cache := newCache }).stepsCalled + 1,
        final := (run_simulation_fcd rest { log := more, cache := newCache }).final,
        outcome := (run_simulation_fcd rest { log := more, cache := newCache }).outcome } := by
  conv =>
    lhs
    rw [run_simulation_fcd]
  rw [hst, if_pos rfl]
  rw [hlog]
  simp only [hread, hsend, if_pos]

/-- Claim C3 counterexample: on a recorded scenario whose primary log holds
exactly 3 timesteps, with the status RUNNING throughout and every send
succeeding, the 4 observed tick iterations emit exactly 3 snapshot messages,
and the 4th next() call on the exhausted generator escapes as an uncaught
StopIteration: the loop neither transitions the status to OFF nor emits any
status update (no state message appears among the emitted messages), so the
exhausted log is not treated as a client-issued cancel. -/
theorem end_of_recording_counterexample :
    (run_simulation_fcd (List.replicate 4 (Status.running, true))
        { log := demoLog, cache := [] }).emitted.length = 3 ∧
    (run_simulation_fcd (List.replicate 4 (Status.running, true))
        { log := demoLog, cache := [] }).outcome = LoopExit.stopIter ∧
    (run_simulation_fcd (List.replicate 4 (Status.running, true))
        { log := demoLog, cache := [] }).emitted.filter isStateMsg = [] := by
  decide

/-- Claim C3 amended: for every recorded log all of whose timesteps are
well-formed, a run of N + 1 tick iterations with status RUNNING and all
sends succeeding emits exactly N snapshot messages; the (N + 1)-th tick
attempt calls next() on the exhausted generator and the run ends in the
uncaught StopIteration outcome, emitting no status update at all (in
particular not the one a cancel would produce). -/
theorem end_of_recording_amended (log : List FcdTimestep) :
    ∀ cache : VehMap, (∀ ts ∈ log, tsOk ts = true) →
    (run_simulation_fcd (List.replicate (log.length + 1) (Status.running, true))
        { log := log, cache := cache }).emitted.length = log.length ∧
    (run_simulation_fcd (List.replicate (log.length + 1) (Status.running, true))
        { log := log, cache := cache }).stepsCalled = log.length + 1 ∧
    (run_simulation_fcd (List.replicate (log.length + 1) (Status.running, true))
        { log := log, cache := cache }).outcome = LoopExit.stopIter ∧
    (run_simulation_fcd (List.replicate (log.length + 1) (Status.running, true))
        { log := log, cache := cache }).emitted.filter isStateMsg = [] := by
  induction log with
  | nil =>
    intro cache _
    exact ⟨rfl, rfl, rfl, rfl⟩
  | cons ts rest ih =>
    intro cache h
    obtain ⟨pr, hpr⟩ := read_next_step_isOk (h ts (List.mem_cons_self _ _)) cache
    obtain ⟨snap, newCache⟩ := pr
    have hstep := @run_simulation_fcd_step (Status.running, true) rfl rfl
      { log := ts :: rest, cache := cache } ts rest rfl snap newCache hpr
      (List.replicate (rest.length + 1) (Status.running, true))
    have hrec := ih newCache (fun t ht => h t (List.mem_cons_of_mem _ ht))
    rw [List.length_cons, List.replicate_succ, hstep]
    refine ⟨?_, ?_, ?_, ?_⟩
    · simp only [List.length_cons, hrec.1]
    · simp only [hrec.2.1]
    · simp only [hrec.2.2.1]
    · simp only [List.filter_cons, hrec.2.2.2]
      rfl

theorem end_of_recording_amended_witness :
    (run_simulation_fcd (List.replicate (demoLog.length + 1) (Status.running, true))
        { log := demoLog, cache := [] }).emitted.length = demoLog.length ∧
    (run_simulation_fcd (List.replicate (demoLog.length + 1) (Status.running, true))
        { log := demoLog, cache := [] }).stepsCalled = demoLog.length + 1 ∧
    (run_simulation_fcd (List.replicate (demoLog.length + 1) (Status.running, true))
        { log := demoLog, cache := [] }).outcome = LoopExit.stopIter ∧
    (run_simulation_fcd (List.replicate (demoLog.length + 1) (Status.running, true))
        { log := demoLog, cache := [] }).emitted.filter isStateMsg = [] :=
  end_of_recording_amended demoLog [] (by decide)

/- ---------------------------------------------------------------------
   Claims about the control handler.
   --------------------------------------------------------------------- -/

/-- Claim C4 counterexample: in a session whose status is already RUNNING
with one live tick-loop task, processing a start action is not a no-op: it
succeeds and leaves two live tick-loop tasks, so a second concurrent tick
loop has been spawned. -/
theorem start_while_running_counterexample :
    runningCtrl.simulation_status = Status.running ∧
    runningCtrl.liveTasks = 1 ∧
    (handle_action ActionMsg.start runningCtrl).toOption.map
      (fun p => p.1.liveTasks) = some 2 := by
  decide

/-- Claim C4 amended: processing a start action always creates a fresh
tick-loop task, whatever the current status: the count of live tick-loop
tasks grows by one (a previously spawned loop keeps running, so a start
while RUNNING leaves two concurrent loops, and step invocations outnumber
elapsed ticks accordingly). -/
theorem start_spawns_new_task (st st2 : CtrlState) (msgs : List OutMsg)
    (h : handle_action ActionMsg.start st = Except.ok (st2, msgs)) :
    st2.liveTasks = st.liveTasks + 1 ∧ st2.simulation_status = Status.running ∧
    st2.taskVar = true ∧ st2.taskAlive = true := by
  unfold handle_action at h
  simp only [Except.ok.injEq, Prod.mk.injEq] at h
  obtain ⟨h1, _⟩ := h
  subst h1
  exact ⟨rfl, rfl, rfl, rfl⟩

theorem start_spawns_new_task_witness :
    runningCtrlStarted.liveTasks = runningCtrl.liveTasks + 1 ∧
    runningCtrlStarted.simulation_status = Status.running ∧
    runningCtrlStarted.taskVar = true ∧ runningCtrlStarted.taskAlive = true :=
  start_spawns_new_task runningCtrl runningCtrlStarted
    [OutMsg.stateMsg (mkRat 30 1) "demo" Status.running] (by decide)

/-- Claim C5 counterexample: a pause action processed while the status is
OFF is not rejected: it succeeds with no error, the status becomes PAUSED,
and the state message sent back reports paused rather than off. -/
theorem pause_while_off_counterexample :
    offCtrl.simulation_status = Status.off ∧
    handle_action ActionMsg.pause offCtrl =
      Except.ok ({ offCtrl with simulation_status := Status.paused },
        [OutMsg.stateMsg (mkRat 30 1) "demo" Status.paused]) := by
  decide

/-- Claim C5 amended: the pause branch is unconditional: a pause action
processed while the status is OFF raises no error, sets the status to
PAUSED, and the state message sent back reports paused. -/
theorem pause_while_off_sets_paused (st : CtrlState)
    (_h : st.simulation_status = Status.off) :
    handle_action ActionMsg.pause st =
      Except.ok ({ st with simulation_status := Status.paused },
        [OutMsg.stateMsg st.delay_length_ms (to_kebab_case st.scenName) Status.paused]) := by
  unfold handle_action get_state_websocket_message
  rfl

theorem pause_while_off_sets_paused_witness :
    handle_action ActionMsg.pause offCtrl =
      Except.ok ({ offCtrl with simulation_status := Status.paused },
        [OutMsg.stateMsg offCtrl.delay_length_ms (to_kebab_case offCtrl.scenName)
          Status.paused]) :=
  pause_while_off_sets_paused offCtrl rfl

/-- Claim C6 counterexample: on a transport-level send error
(ConnectionResetError) during a RUNNING iteration, the tick loop exits
silently without performing the cleanup a cancel performs: the
previous-frame cache still holds the freshly read frame instead of being
cleared (and the loop itself neither changes the status nor stops the
source; the cleanup runs only in the control handler). -/
theorem transport_error_counterexample :
    (run_simulation_fcd [(Status.running, false)]
        { log := demoLog, cache := [] }).outcome = LoopExit.connReset ∧
    (run_simulation_fcd [(Status.running, false)]
        { log := demoLog, cache := [] }).final.cache = [("a", demoVeh (mkRat 1 1))] ∧
    (run_simulation_fcd [(Status.running, false)]
        { log := demoLog, cache := [] }).emitted = [] := by
  decide

/-- Claim C6 amended: a transport-level error while sending makes the tick
loop return silently with no cleanup at all: the previous-frame cache keeps
the freshly read frame and nothing further is emitted (first part).  The
cancel-equivalent cleanup happens only when the control socket itself
delivers a WSMsgType.ERROR message: then the status is set to OFF, the
referenced task is cancelled, the previous-frame cache is cleared, and a
live engine is stopped, without raising (second part). -/
theorem transport_error_amended :
    (∀ (ob : Status × Bool) (rest : List (Status × Bool)) (st : LoopState)
        (ts : FcdTimestep) (more : List FcdTimestep) (snap : Snapshot) (newCache : VehMap),
      ob.1 = Status.running → ob.2 = false → st.log = ts :: more →
      read_next_step ts.time ts.vehicles st.cache = Except.ok (snap, newCache) →
      run_simulation_fcd (ob :: rest) st =
        { emitted := [], stepsCalled := 1,
          final := { log := more, cache := newCache }, outcome := LoopExit.connReset }) ∧
    (∀ st : CtrlState, st.taskVar = true →
      handle_ws_msg InMsg.errorMsg st =
        Except.ok
          ({ st with
              simulation_status := Status.off,
              liveTasks := if st.taskAlive then st.liveTasks - 1 else st.liveTasks,
              taskAlive := false, last_vehicles := [],
              sumoRunning := if st.live then false else st.sumoRunning }, [])) := by
  constructor
  · intro ob rest st ts more snap newCache hst hsend hlog hread
    conv =>
      lhs
      rw [run_simulation_fcd]
    rw [hst, if_pos rfl]
    rw [hlog]
    simp only [hread, hsend]
    rfl
  · intro st htask
    unfold handle_ws_msg cleanup_sumo_simulation
    simp only [htask]
    rfl

theorem transport_error_amended_witness :
    run_simulation_fcd [(Status.running, false)] { log := demoLog, cache := [] } =
      { emitted := [], stepsCalled := 1,
        final := { log := demoLog.tail, cache := [("a", demoVeh (mkRat 1 1))] },
        outcome := LoopExit.connReset } ∧
    handle_ws_msg InMsg.errorMsg runningCtrl =
      Except.ok
        ({ runningCtrl with
            simulation_status := Status.off,
            liveTasks := if runningCtrl.taskAlive then runningCtrl.liveTasks - 1
              else runningCtrl.liveTasks,
            taskAlive := false, last_vehicles := [],
            sumoRunning := if runningCtrl.live then false else runningCtrl.sumoRunning },
         []) :=
  ⟨transport_error_amended.1 (Status.running, false) [] { log := demoLog, cache := [] }
      { time := "0.0", vehicles := [rv "a" "1"] } demoLog.tail
      { time_ms := mkRat 0 1,
        vehicles := [("a", some (demoVeh (mkRat 1 1)))],
        vehicle_counts := [("passenger", 1)] }
      [("a", demoVeh (mkRat 1 1))] rfl rfl (by decide) (by decide),
   transport_error_amended.2 runningCtrl rfl⟩

/- ---------------------------------------------------------------------
   Claims about entity construction.
   --------------------------------------------------------------------- -/

/-- Claim C8 counterexample: a record whose angle attribute is not numeric
text (it has no float value) is accepted by entity construction without any
parse error, and the constructed entity carries the raw text as its angle:
the angle field is never parsed into a number. -/
theorem angle_not_parsed_counterexample :
    pyFloat badAngleVeh.angle = none ∧
    (read_fcd_vehicle badAngleVeh).toOption.map (fun e => e.angle) = some "ninety" := by
  decide

/-- Claim C8 amended: entity construction parses x, y and speed from their
textual representation and raises a parse error on non-numeric input for
those fields (never coercing to zero: on success each stored value is
exactly the parsed one), but the angle field is not parsed at all: it is
carried through as the raw source text. -/
theorem numeric_fields_amended :
    (∀ v : RawVehicle,
      (pyFloat v.x = none ∨ pyFloat v.y = none ∨ pyFloat v.speed = none) →
      read_fcd_vehicle v = Except.error "could not convert string to float") ∧
    (∀ (v : RawVehicle) (e : Vehicle), read_fcd_vehicle v = Except.ok e →
      pyFloat v.x = some e.x ∧ pyFloat v.y = some e.y ∧
      pyFloat v.speed = some e.speed ∧ e.angle = v.angle) := by
  constructor
  · intro v hbad
    unfold read_fcd_vehicle
    rcases hx : pyFloat v.x with _ | xq
    · rfl
    · rcases hy : pyFloat v.y with _ | yq
      · rfl
      · rcases hs : pyFloat v.speed with _ | sq
        · rfl
        · exfalso
          rcases hbad with hb | hb | hb
          · rw [hb] at hx
            cases hx
          · rw [hb] at hy
            cases hy
          · rw [hb] at hs
            cases hs
  · intro v e h
    unfold read_fcd_vehicle at h
    rcases hx : pyFloat v.x with _ | xq <;> rw [hx] at h
    · cases h
    rcases hy : pyFloat v.y with _ | yq <;> rw [hy] at h
    · cases h
    rcases hs : pyFloat v.speed with _ | sq <;> rw [hs] at h
    · cases h
    injection h with h2
    subst h2
    exact ⟨rfl, rfl, rfl, rfl⟩

theorem numeric_fields_amended_witness :
    read_fcd_vehicle badXVeh = Except.error "could not convert string to float" ∧
    (pyFloat defaultTypeVeh.x = some defaultTypeEnt.x ∧
     pyFloat defaultTypeVeh.y = some defaultTypeEnt.y ∧
     pyFloat defaultTypeVeh.speed = some defaultTypeEnt.speed ∧
     defaultTypeEnt.angle = defaultTypeVeh.angle) :=
  ⟨numeric_fields_amended.1 badXVeh (Or.inl (by decide)),
   numeric_fields_amended.2 defaultTypeVeh defaultTypeEnt (by decide)⟩

/-- Claim C9: entity construction normalizes every raw record: the generic
default vehicle type literal is rewritten to the canonical car label, a
record without a vehicle class field is assigned the passenger class, and a
record without a color field produces an entity with no color attribute at
all. -/
theorem read_fcd_vehicle_normalizes (v : RawVehicle) (e : Vehicle)
    (h : read_fcd_vehicle v = Except.ok e) :
    (v.vtype = "DEFAULT_VEHTYPE" → e.vtype = "car") ∧
    (v.vClass = none → e.vClass = "passenger") ∧
    (v.color = none → e.color = none) := by
  unfold read_fcd_vehicle at h
  rcases hx : pyFloat v.x with _ | xq <;> rw [hx] at h
  · cases h
  rcases hy : pyFloat v.y with _ | yq <;> rw [hy] at h
  · cases h
  rcases hs : pyFloat v.speed with _ | sq <;> rw [hs] at h
  · cases h
  injection h with h2
  subst h2
  refine ⟨?_, ?_, ?_⟩
  · intro hd
    simp [hd]
  · intro hc
    simp [hc]
  · intro hc
    simp [parse_color, hc]

theorem read_fcd_vehicle_normalizes_witness :
    (defaultTypeVeh.vtype = "DEFAULT_VEHTYPE" → defaultTypeEnt.vtype = "car") ∧
    (defaultTypeVeh.vClass = none → defaultTypeEnt.vClass = "passenger") ∧
    (defaultTypeVeh.color = none → defaultTypeEnt.color = none) :=
  read_fcd_vehicle_normalizes defaultTypeVeh defaultTypeEnt (by decide)

/- ---------------------------------------------------------------------
   Claim about the scenario registry.
   --------------------------------------------------------------------- -/

/- Inserting into a dict keeps the key list duplicate-free. -/
theorem dictInsert_keys_nodup {α : Type} {m : List (String × α)} (k : String) (v : α)
    (h : (m.map Prod.fst).Nodup) : ((dictInsert m k v).map Prod.fst).Nodup := by
  unfold dictInsert
  by_cases hc : m.any (fun p => p.1 == k) = true
  · rw [if_pos hc]
    have hkeys : (m.map (fun p => if p.1 == k then (k, v) else p)).map Prod.fst
        = m.map Prod.fst := by
      rw [List.map_map]
      apply List.map_congr_left
      intro p _
      by_cases hpk : (p.1 == k) = true
      · simp only [Function.comp_apply, hpk, if_true]
        exact (beq_iff_eq.mp hpk).symm
      · have hne : ¬ (p.1 = k) := fun he => hpk (beq_iff_eq.mpr he)
        simp [Function.comp_apply, hpk, hne]
    rw [hkeys]
    exact h
  · rw [if_neg hc]
    rw [List.map_append, List.nodup_append]
    refine ⟨h, List.nodup_singleton _, ?_⟩
    intro a ha hb
    simp only [List.map_cons, List.map_nil, List.mem_singleton] at hb
    subst hb
    rw [Bool.not_eq_true, List.any_eq_false] at hc
    obtain ⟨p, hp, hpk⟩ := List.mem_map.mp ha
    exact absurd (beq_iff_eq.mpr hpk) (by simpa using hc p hp)

/- Folding scenario insertions keeps the key list duplicate-free. -/
theorem foldl_scenario_insert_nodup (js : List ScenJson) :
    ∀ acc : List (String × ScenEntry), (acc.map Prod.fst).Nodup →
    ((js.foldl (fun acc j =>
        let sc := scenario_from_config_json j
        dictInsert acc sc.name sc) acc).map Prod.fst).Nodup := by
  induction js with
  | nil => exact fun acc h => h
  | cons j rest ih =>
    intro acc h
    exact ih _ (dictInsert_keys_nodup _ _ h)

/-- Claim C10: loading a scenarios file raises the duplicate-name exception
whenever two entries of the file map to the same kebab-case name, and any
successful load of a registry with duplicate-free keys yields a registry
whose keys are again duplicate-free: one entry per kebab-case name. -/
theorem load_scenarios_unique_keys (prev : List (String × ScenEntry))
    (js : List ScenJson) (hprev : (prev.map Prod.fst).Nodup) :
    (¬ (js.map (fun j => to_kebab_case j.name)).Nodup →
      load_scenarios_file prev (some js) = Except.error dupNamesMsg) ∧
    (∀ r, load_scenarios_file prev (some js) = Except.ok r →
      (r.map Prod.fst).Nodup) := by
  constructor
  · intro hdup
    unfold load_scenarios_file
    simp only [if_neg hdup]
  · intro r hr
    unfold load_scenarios_file at hr
    by_cases hnd : (js.map (fun j => to_kebab_case j.name)).Nodup
    · simp only [if_pos hnd] at hr
      injection hr with hr2
      rw [← hr2]
      exact foldl_scenario_insert_nodup _ _ hprev
    · simp only [if_neg hnd] at hr
      cases hr

theorem load_scenarios_unique_keys_witness :
    load_scenarios_file [] (some demoDupJs) = Except.error dupNamesMsg :=
  (load_scenarios_unique_keys [] demoDupJs (by decide)).1 (by decide)
